import Mathlib

/-!
Verification development for the collaboration negotiation workflow of the
vayada creator-marketplace backend.

The repository ships the HTTP tests for the collaboration and chat endpoints
(src/tests/test_collaborations.py, src/tests/test_chat.py) and re-exports the
collaboration and chat pydantic models, but the router module implementing the
workflow and the model module are not part of the source tree here.  The
definitions below are therefore modelled from the design specification
(spec.md sections 3, 4, 6, 7) and, where the spec is silent, from the
observable behaviour pinned by the tests.  Machine timestamps and dates are
modelled as natural numbers; identifiers are natural numbers; monetary
amounts and percentages are natural numbers (no arithmetic on them is
specified).  The bookkeeping columns created_at / updated_at are omitted:
no specified property mentions them.
-/

namespace Vayada

/-- Modelled from the spec: the two kinds of participant of a collaboration
(`initiator_type ∈ {creator, hotel}`, spec section 3). -/
inductive Party where
  | creator
  | hotel
deriving DecidableEq

/-- Modelled from the spec: the collaboration lifecycle status,
`status ∈ {pending, negotiating, accepted, declined, cancelled}` (spec section 3). -/
inductive CStatus where
  | pending
  | negotiating
  | accepted
  | declined
  | cancelled
deriving DecidableEq

/-- Modelled from the spec: `collaboration_type ∈ {Free Stay, Paid, Discount}`
(spec section 3). -/
inductive CollabType where
  | freeStay
  | paid
  | discount
deriving DecidableEq

/-- Modelled from the spec: deliverable status, `status ∈ {pending, completed}`
(spec section 3). -/
inductive DStatus where
  | dpending
  | dcompleted
deriving DecidableEq

/-- Modelled from the spec: one promised unit of content
(platform + type + quantity) owned by exactly one collaboration (spec section 3). -/
structure Deliverable where
  id : Nat
  platform : String
  dtype : String
  quantity : Nat
  status : DStatus
deriving DecidableEq

/-- Modelled from the spec: one negotiation between exactly one creator and one
hotel listing, with the attributes of spec section 3 (compensation fields are
nullable columns, exactly one group populated per `collaboration_type`). -/
structure Collab where
  id : Nat
  listing_id : Nat
  creator_id : Nat
  hotel_id : Nat
  initiator_type : Party
  status : CStatus
  ctype : CollabType
  free_stay_min_nights : Option Nat
  free_stay_max_nights : Option Nat
  paid_amount : Option Nat
  discount_percentage : Option Nat
  travel_date_from : Option Nat
  travel_date_to : Option Nat
  creator_agreed_at : Option Nat
  hotel_agreed_at : Option Nat
  cancelled_at : Option Nat
  cancellation_reason : Option String
  deliverables : List Deliverable
deriving DecidableEq

/-- Modelled from the spec: the error taxonomy of spec section 7. -/
inductive Err where
  | validation
  | forbidden
  | conflict
  | notFound
deriving DecidableEq

/-- The counterpart of a party. -/
def otherParty : Party → Party
  | .creator => .hotel
  | .hotel => .creator

/-- Modelled from the spec: each operation's actor arrives as an already
validated `{creator_id}` or `{hotel_id}` (spec section 6); `partyOf` resolves
which side of the collaboration an id belongs to, or none for a non-participant. -/
def partyOf (c : Collab) (uid : Nat) : Option Party :=
  if uid = c.creator_id then some .creator
  else if uid = c.hotel_id then some .hotel
  else none

/-- The agreement flag (`*_agreed_at`) of the given party. -/
def agreedAt (c : Collab) : Party → Option Nat
  | .creator => c.creator_agreed_at
  | .hotel => c.hotel_agreed_at

/-- Set the given party's own `*_agreed_at` timestamp, leaving the other
party's flag untouched (used by respond-accept and approve, spec section 4.1). -/
def setAgreed (c : Collab) (p : Party) (now : Nat) : Collab :=
  match p with
  | .creator => { c with creator_agreed_at := some now }
  | .hotel => { c with hotel_agreed_at := some now }

/-- Modelled from the spec: a terms update sets the acting party's
`*_agreed_at` to now and clears the other party's `*_agreed_at` to null
(spec section 4.1, Update terms). -/
def stampAgreement (c : Collab) (p : Party) (now : Nat) : Collab :=
  match p with
  | .creator => { c with creator_agreed_at := some now, hotel_agreed_at := none }
  | .hotel => { c with hotel_agreed_at := some now, creator_agreed_at := none }

/-- Whether both agreement flags are set. -/
def bothAgreed (c : Collab) : Bool :=
  c.creator_agreed_at.isSome && c.hotel_agreed_at.isSome

/-- Modelled from the spec: `declined` and `cancelled` are terminal failure
states and `accepted` the terminal success state (spec section 4.1). -/
def isTerminal : CStatus → Bool
  | .accepted => true
  | .declined => true
  | .cancelled => true
  | .pending => false
  | .negotiating => false

/-- The responder's decision in a respond call (spec section 6,
`decision ∈ {accepted, declined}`). -/
inductive Decision where
  | daccepted
  | ddeclined
deriving DecidableEq

/-- Modelled from the spec: Respond (`pending → negotiating` on accept,
`pending → declined` on decline).  Only the non-initiating party may respond;
accepting sets that party's `*_agreed_at` and moves status to `negotiating`;
declining sets status to `declined`.  `Conflict` if status is not `pending`
(spec section 8 no-regression requires every call on a responded collaboration
to fail with `Conflict`, so the status guard is checked first); `Forbidden`
if the initiator, or a non-participant, attempts to respond (spec section 4.1). -/
def respond (c : Collab) (actor : Nat) (d : Decision) (now : Nat) : Except Err Collab :=
  if c.status = .pending then
    match partyOf c actor with
    | none => .error .forbidden
    | some p =>
      if p = c.initiator_type then .error .forbidden
      else
        match d with
        | .daccepted => .ok (setAgreed { c with status := .negotiating } p now)
        | .ddeclined => .ok { c with status := .declined }
  else .error .conflict

/-- Modelled from the spec: Approve (`negotiating → negotiating` or
`negotiating → accepted`): the acting party sets their own `*_agreed_at`;
if afterwards both flags are non-null, status transitions to `accepted`
(spec section 4.1).  `Conflict` when not in `negotiating` (spec section 8
no-regression); `Forbidden` when the caller is not a participant. -/
def approve (c : Collab) (actor : Nat) (now : Nat) : Except Err Collab :=
  if c.status = .negotiating then
    match partyOf c actor with
    | none => .error .forbidden
    | some p =>
      if bothAgreed (setAgreed c p now) then
        .ok { setAgreed c p now with status := .accepted }
      else .ok (setAgreed c p now)
  else .error .conflict

/-- Modelled from the spec: Cancel (`{pending, negotiating} → cancelled`):
either participant may cancel with an optional free-text reason; sets
`cancelled_at`.  `Conflict` if already in a terminal state; `Forbidden` if the
caller is not a participant (spec section 4.1). -/
def cancel (c : Collab) (actor : Nat) (reason : Option String) (now : Nat) :
    Except Err Collab :=
  if isTerminal c.status then .error .conflict
  else
    match partyOf c actor with
    | none => .error .forbidden
    | some _ =>
      .ok { c with status := .cancelled, cancelled_at := some now,
                   cancellation_reason := reason }

/-- Flip a deliverable status between pending and completed. -/
def flipStatus : DStatus → DStatus
  | .dpending => .dcompleted
  | .dcompleted => .dpending

/-- Flip the deliverable row with the given id, leave every other row alone. -/
def toggleIfId (did : Nat) (d : Deliverable) : Deliverable :=
  if d.id = did then { d with status := flipStatus d.status } else d

/-- Modelled from the spec: Toggle deliverable (no collaboration-status
change): either participant flips one deliverable between `pending` and
`completed`.  `NotFound` if the deliverable does not belong to the
collaboration; `Forbidden` if the caller is not a participant
(spec sections 4.1 and 7). -/
def toggle (c : Collab) (did : Nat) (actor : Nat) : Except Err Collab :=
  match partyOf c actor with
  | none => .error .forbidden
  | some _ =>
    if c.deliverables.any (fun d => d.id = did) then
      .ok { c with deliverables := c.deliverables.map (toggleIfId did) }
    else .error .notFound

/-- Modelled from the spec: one requested deliverable inside the
`platform_deliverables` payload (platform + type + quantity + initial status). -/
structure DeliverableSpec where
  platform : String
  dtype : String
  quantity : Nat
  status : DStatus
deriving DecidableEq

/-- Materialise requested deliverable rows, assigning fresh ids from `base`. -/
def mkDeliverables (base : Nat) (specs : List DeliverableSpec) : List Deliverable :=
  specs.enum.map fun pr =>
    { id := base + pr.1, platform := pr.2.platform, dtype := pr.2.dtype,
      quantity := pr.2.quantity, status := pr.2.status }

/-- Modelled from the spec: the create-collaboration request shape of spec
section 6: `(initiator_type, listing_id, [creator_id if hotel-initiated],
collaboration_type, compensation fields, date range, deliverables[], consent?)`. -/
structure CreateRequest where
  initiator_type : Party
  listing_id : Nat
  creator_id : Option Nat
  ctype : CollabType
  free_stay_min_nights : Option Nat
  free_stay_max_nights : Option Nat
  paid_amount : Option Nat
  discount_percentage : Option Nat
  travel_date_from : Option Nat
  travel_date_to : Option Nat
  deliverables : List DeliverableSpec
  consent : Bool
deriving DecidableEq

/-- Modelled from the spec: the compensation fields required by the chosen
`collaboration_type` are present — Free Stay requires min/max nights, Paid an
amount, Discount a percentage (spec section 4.1, Create). -/
def compProvided (req : CreateRequest) : Bool :=
  match req.ctype with
  | .freeStay => req.free_stay_min_nights.isSome && req.free_stay_max_nights.isSome
  | .paid => req.paid_amount.isSome
  | .discount => req.discount_percentage.isSome

/-- Modelled from the spec: date range ordering `from ≤ to` (spec section 4.2);
a missing endpoint imposes no constraint. -/
def datesOk (f t : Option Nat) : Bool :=
  match f, t with
  | some a, some b => decide (a ≤ b)
  | _, _ => true

/-- Modelled from the spec: deliverable quantities are positive integers
(spec section 4.2). -/
def quantitiesOk (specs : List DeliverableSpec) : Bool :=
  specs.all fun s => decide (0 < s.quantity)

/-- The compensation field group populated at creation: exactly the group of
the chosen `collaboration_type`, the other groups null (spec section 3
invariant). Order: (min nights, max nights, paid amount, discount percentage). -/
def createComp (req : CreateRequest) :
    Option Nat × Option Nat × Option Nat × Option Nat :=
  match req.ctype with
  | .freeStay => (req.free_stay_min_nights, req.free_stay_max_nights, none, none)
  | .paid => (none, none, req.paid_amount, none)
  | .discount => (none, none, none, req.discount_percentage)

/-- The freshly created collaboration row: `status = pending`, no agreement
flags set, exactly the compensation group of the chosen type populated
(spec sections 3 and 4.1). -/
def newCollab (req : CreateRequest) (cid hid newId base : Nat) : Collab :=
  { id := newId, listing_id := req.listing_id, creator_id := cid,
    hotel_id := hid, initiator_type := req.initiator_type,
    status := .pending, ctype := req.ctype,
    free_stay_min_nights := (createComp req).1,
    free_stay_max_nights := (createComp req).2.1,
    paid_amount := (createComp req).2.2.1,
    discount_percentage := (createComp req).2.2.2,
    travel_date_from := req.travel_date_from,
    travel_date_to := req.travel_date_to,
    creator_agreed_at := none, hotel_agreed_at := none,
    cancelled_at := none, cancellation_reason := none,
    deliverables := mkDeliverables base req.deliverables }

/-- Modelled from the spec: Create (initial transition, spec section 4.1): a
participant proposes a collaboration against a listing; `status = pending`;
fails with `ValidationError` if the initiator type does not match the
authenticated caller's role, if required compensation fields for the chosen
`collaboration_type` are absent, on invalid date order or empty deliverables
(spec section 7), or if a hotel-initiated request names no creator.
`callerRole`/`callerId` are the authenticated caller, `listingHotelId` the
owner of the target listing, `newId`/`base` fresh row ids. -/
def create (req : CreateRequest) (callerRole : Party) (callerId : Nat)
    (listingHotelId : Nat) (newId : Nat) (base : Nat) : Except Err Collab :=
  if req.initiator_type = callerRole then
    if compProvided req then
      if datesOk req.travel_date_from req.travel_date_to then
        if req.deliverables.isEmpty then .error .validation
        else if quantitiesOk req.deliverables then
          match req.initiator_type, req.creator_id with
          | .creator, _ => .ok (newCollab req callerId listingHotelId newId base)
          | .hotel, some cid => .ok (newCollab req cid callerId newId base)
          | .hotel, none => .error .validation
        else .error .validation
      else .error .validation
    else .error .validation
  else .error .validation

/-- Modelled from the spec: the update-terms request shape — a sparse set of
fields, any subset of type, compensation values, date range, deliverables
(spec sections 4.2 and 6).  The `stay_nights` field is the single night count
of tests/test_collaborations.py test_update_nights: the handler collapses the
min/max night range to this one value. -/
structure UpdateRequest where
  ctype : Option CollabType
  stay_nights : Option Nat
  paid_amount : Option Nat
  discount_percentage : Option Nat
  travel_date_from : Option Nat
  travel_date_to : Option Nat
  deliverables : Option (List DeliverableSpec)
deriving DecidableEq

/-- First-of-two option fallback. -/
def orElse2 (a b : Option Nat) : Option Nat :=
  match a with
  | some x => some x
  | none => b

/-- Modelled from the spec: compensation resolution for a terms update — the
group matching the (possibly updated) `collaboration_type` is taken from the
request, falling back to the stored value; the other groups are cleared to
null (spec sections 4.2 and the section 3 compensation invariant).  `none`
when the matching group would end up absent (`ValidationError`).
A supplied `stay_nights` collapses both min and max nights to that value. -/
def updateComp (t : CollabType) (req : UpdateRequest) (c : Collab) :
    Option (Option Nat × Option Nat × Option Nat × Option Nat) :=
  match t with
  | .freeStay =>
    let mn := orElse2 req.stay_nights c.free_stay_min_nights
    let mx := orElse2 req.stay_nights c.free_stay_max_nights
    if mn.isSome && mx.isSome then some (mn, mx, none, none) else none
  | .paid =>
    let pa := orElse2 req.paid_amount c.paid_amount
    if pa.isSome then some (none, none, pa, none) else none
  | .discount =>
    let dp := orElse2 req.discount_percentage c.discount_percentage
    if dp.isSome then some (none, none, none, dp) else none

/-- The `collaboration_type` in force after a terms update: the requested one
when supplied, else the stored one (spec section 4.2, sparse updates). -/
def effType (req : UpdateRequest) (c : Collab) : CollabType :=
  match req.ctype with
  | some x => x
  | none => c.ctype

/-- The collaboration after a successful terms update: new type, resolved
compensation group (others cleared), resolved dates, the given deliverable
rows, and the agreement stamp of spec section 4.1 (actor set to now,
counterpart cleared). -/
def applyUpdate (c : Collab) (req : UpdateRequest)
    (comp : Option Nat × Option Nat × Option Nat × Option Nat)
    (ds : List Deliverable) (p : Party) (now : Nat) : Collab :=
  stampAgreement
    { c with ctype := effType req c,
             free_stay_min_nights := comp.1,
             free_stay_max_nights := comp.2.1,
             paid_amount := comp.2.2.1,
             discount_percentage := comp.2.2.2,
             travel_date_from := orElse2 req.travel_date_from c.travel_date_from,
             travel_date_to := orElse2 req.travel_date_to c.travel_date_to,
             deliverables := ds } p now

/-- Modelled from the spec: Update terms (`negotiating → negotiating`, resets
agreement): either participant may revise compensation, dates, or deliverables
while `negotiating`; the acting party's `*_agreed_at` is set to now and the
other party's cleared to null; deliverables supplied in the update fully
replace the existing deliverable set (spec sections 4.1 and 4.2).  `Conflict`
outside `negotiating` (spec section 8, scenario 4); `Forbidden` for
non-participants; `ValidationError` on a missing matching compensation field,
bad date order, or non-positive quantity. -/
def update (c : Collab) (req : UpdateRequest) (actor : Nat) (now : Nat)
    (base : Nat) : Except Err Collab :=
  if c.status = .negotiating then
    match partyOf c actor with
    | none => .error .forbidden
    | some p =>
      match updateComp (effType req c) req c with
      | none => .error .validation
      | some comp =>
        if datesOk (orElse2 req.travel_date_from c.travel_date_from)
            (orElse2 req.travel_date_to c.travel_date_to) then
          match req.deliverables with
          | some specs =>
            if quantitiesOk specs then
              .ok (applyUpdate c req comp (mkDeliverables base specs) p now)
            else .error .validation
          | none => .ok (applyUpdate c req comp c.deliverables p now)
        else .error .validation
  else .error .conflict

/-- A collaboration state is reachable when it is produced by a successful
create and then closed under the successful mutating operations of spec
section 4.1 (respond, update terms, approve, cancel, toggle deliverable). -/
inductive Reachable : Collab → Prop where
  | created (req : CreateRequest) (role : Party) (callerId listingHotelId newId base : Nat)
      (c : Collab) :
      create req role callerId listingHotelId newId base = .ok c → Reachable c
  | responded (c : Collab) (actor : Nat) (d : Decision) (now : Nat) (c2 : Collab) :
      Reachable c → respond c actor d now = .ok c2 → Reachable c2
  | updatedTerms (c : Collab) (req : UpdateRequest) (actor now base : Nat) (c2 : Collab) :
      Reachable c → update c req actor now base = .ok c2 → Reachable c2
  | approved (c : Collab) (actor now : Nat) (c2 : Collab) :
      Reachable c → approve c actor now = .ok c2 → Reachable c2
  | cancelledStep (c : Collab) (actor : Nat) (reason : Option String) (now : Nat)
      (c2 : Collab) :
      Reachable c → cancel c actor reason now = .ok c2 → Reachable c2
  | toggled (c : Collab) (did actor : Nat) (c2 : Collab) :
      Reachable c → toggle c did actor = .ok c2 → Reachable c2

/-- The agreement-flag shape allowed in each status: both null while
`pending`, at most one set while `negotiating` or in a terminal failure
state, both set exactly in `accepted` (spec section 3 invariants). -/
def agreeOk (c : Collab) : Bool :=
  match c.status with
  | .pending => c.creator_agreed_at.isNone && c.hotel_agreed_at.isNone
  | .negotiating => c.creator_agreed_at.isNone || c.hotel_agreed_at.isNone
  | .accepted => c.creator_agreed_at.isSome && c.hotel_agreed_at.isSome
  | .declined => c.creator_agreed_at.isNone || c.hotel_agreed_at.isNone
  | .cancelled => c.creator_agreed_at.isNone || c.hotel_agreed_at.isNone

/-- The compensation invariant of spec section 3: the group matching
`collaboration_type` is populated and the other groups are null. -/
def compOk (c : Collab) : Bool :=
  match c.ctype with
  | .freeStay =>
      c.free_stay_min_nights.isSome && c.free_stay_max_nights.isSome &&
      (c.paid_amount == none) && (c.discount_percentage == none)
  | .paid =>
      (c.free_stay_min_nights == none) && (c.free_stay_max_nights == none) &&
      c.paid_amount.isSome && (c.discount_percentage == none)
  | .discount =>
      (c.free_stay_min_nights == none) && (c.free_stay_max_nights == none) &&
      (c.paid_amount == none) && c.discount_percentage.isSome

/-- Modelled from the spec: one chat message row as far as the conversation
projection needs it — owning collaboration, sender and send time
(spec section 4.4; message storage itself is an external collaborator). -/
structure Message where
  collab_id : Nat
  sender_id : Nat
  created_at : Nat
deriving DecidableEq

/-- Modelled from the spec: one row of the derived conversation view for a
given user (spec sections 3 and 4.4): the collaboration, its status, the last
message timestamp and the unread count. -/
structure ConvSummary where
  collaboration_id : Nat
  collaboration_status : CStatus
  last_message_at : Option Nat
  unread_count : Nat
deriving DecidableEq

/-- Whether a message time lies after the viewer's last read marker; with no
marker every message is unread (spec section 4.4). -/
def afterRead (marker : Option Nat) (t : Nat) : Bool :=
  match marker with
  | none => true
  | some r => decide (r < t)

/-- Modelled from the spec: the unread count of a conversation — the number of
messages of the collaboration sent by the counterpart (not the viewer) after
the viewer's last read marker (spec section 4.4). -/
def unreadCount (viewer : Nat) (msgs : List Message) (marker : Option Nat)
    (cid : Nat) : Nat :=
  (msgs.filter fun m =>
    (m.collab_id == cid) && (m.sender_id != viewer) &&
    afterRead marker m.created_at).length

/-- The timestamp of the latest message of a collaboration, if any. -/
def lastMessageAt (msgs : List Message) (cid : Nat) : Option Nat :=
  (msgs.filter fun m => m.collab_id == cid).foldr
    (fun m acc =>
      match acc with
      | none => some m.created_at
      | some t => some (max m.created_at t)) none

/-- Build the conversation row of one collaboration for a viewer,
given the message table and the viewer's last read marker for it. -/
def mkSummary (viewer : Nat) (msgs : List Message) (reads : Nat → Option Nat)
    (c : Collab) : ConvSummary :=
  { collaboration_id := c.id, collaboration_status := c.status,
    last_message_at := lastMessageAt msgs c.id,
    unread_count := unreadCount viewer msgs (reads c.id) c.id }

/-- The descending order on conversation rows: sorted by last message
timestamp descending (a row with no message sorts last). -/
def convGE (a b : ConvSummary) : Prop :=
  b.last_message_at.getD 0 ≤ a.last_message_at.getD 0

instance : DecidableRel convGE := fun a b =>
  Nat.decLe (b.last_message_at.getD 0) (a.last_message_at.getD 0)

instance : IsTotal ConvSummary convGE :=
  ⟨fun a b => Nat.le_total (b.last_message_at.getD 0) (a.last_message_at.getD 0)⟩

instance : IsTrans ConvSummary convGE :=
  ⟨fun _ _ _ hab hbc => Nat.le_trans hbc hab⟩

/-- Modelled from the spec: the list-conversations projection
(spec section 4.4): one row per collaboration of the viewer that has left
`pending`, carrying last message timestamp and unread count, sorted by last
message timestamp descending; pending collaborations excluded entirely. -/
def conversationsFor (viewer : Nat) (collabs : List Collab)
    (msgs : List Message) (reads : Nat → Option Nat) : List ConvSummary :=
  ((collabs.filter fun c =>
      ((c.creator_id == viewer) || (c.hotel_id == viewer)) &&
      !(c.status == .pending)).map
    (mkSummary viewer msgs reads)).insertionSort convGE

/-! ### Preservation of the agreement-flag invariant -/

theorem agreeOk_create (req : CreateRequest) (role : Party)
    (callerId listingHotelId newId base : Nat) (c : Collab)
    (h : create req role callerId listingHotelId newId base = .ok c) :
    agreeOk c = true := by
  unfold create at h
  repeat' split at h
  all_goals first
    | exact Except.noConfusion h
    | (injection h with h; subst h; rfl)

theorem agreeOk_respond (c c2 : Collab) (a : Nat) (d : Decision) (now : Nat)
    (h : agreeOk c = true) (hr : respond c a d now = .ok c2) :
    agreeOk c2 = true := by
  unfold respond at hr
  split at hr
  case isFalse => exact Except.noConfusion hr
  case isTrue hp =>
    simp only [agreeOk, hp] at h
    simp only [Bool.and_eq_true, Option.isNone_iff_eq_none] at h
    obtain ⟨h1, h2⟩ := h
    split at hr
    · exact Except.noConfusion hr
    · rename_i p heqp
      split at hr
      · exact Except.noConfusion hr
      · split at hr
        · injection hr with hr
          subst hr
          cases p <;> simp [setAgreed, agreeOk, h1, h2]
        · injection hr with hr
          subst hr
          simp [agreeOk, h1]

theorem agreeOk_approve (c c2 : Collab) (a now : Nat)
    (_h : agreeOk c = true) (hr : approve c a now = .ok c2) :
    agreeOk c2 = true := by
  unfold approve at hr
  split at hr
  case isFalse => exact Except.noConfusion hr
  case isTrue hp =>
    split at hr
    · exact Except.noConfusion hr
    · rename_i p heqp
      split at hr
      case isTrue hb =>
        injection hr with hr
        subst hr
        cases p <;>
          simp_all [setAgreed, bothAgreed, agreeOk]
      case isFalse hb =>
        injection hr with hr
        subst hr
        cases p <;>
          simp_all [setAgreed, bothAgreed, agreeOk, hp, Option.isNone_iff_eq_none]

theorem agreeOk_cancel (c c2 : Collab) (a : Nat) (r : Option String) (now : Nat)
    (h : agreeOk c = true) (hr : cancel c a r now = .ok c2) :
    agreeOk c2 = true := by
  unfold cancel at hr
  split at hr
  · simp at hr
  case isFalse ht =>
    split at hr
    · simp at hr
    · injection hr with hr
      subst hr
      cases hs : c.status <;>
        simp_all [agreeOk, isTerminal, hs]

theorem agreeOk_toggle (c c2 : Collab) (did a : Nat)
    (h : agreeOk c = true) (hr : toggle c did a = .ok c2) :
    agreeOk c2 = true := by
  unfold toggle at hr
  split at hr
  · simp at hr
  · split at hr
    · injection hr with hr
      subst hr
      cases hs : c.status <;> simp_all [agreeOk, hs]
    · simp at hr

theorem agreeOk_stamp (c : Collab) (p : Party) (now : Nat)
    (hs : c.status = .negotiating) : agreeOk (stampAgreement c p now) = true := by
  cases p <;> simp [stampAgreement, agreeOk, hs]

theorem agreeOk_update (c c2 : Collab) (req : UpdateRequest) (a now base : Nat)
    (hr : update c req a now base = .ok c2) : agreeOk c2 = true := by
  unfold update at hr
  split at hr
  case isFalse => exact Except.noConfusion hr
  case isTrue hp =>
    repeat' split at hr
    all_goals first
      | exact Except.noConfusion hr
      | (injection hr with hr; subst hr; exact agreeOk_stamp _ _ _ hp)

/-! ### Preservation of the compensation invariant -/

theorem compOk_create (req : CreateRequest) (role : Party)
    (callerId listingHotelId newId base : Nat) (c : Collab)
    (h : create req role callerId listingHotelId newId base = .ok c) :
    compOk c = true := by
  unfold create at h
  repeat' split at h
  all_goals first
    | exact Except.noConfusion h
    | (injection h with h; subst h;
       cases hct : req.ctype <;>
         simp_all [compOk, newCollab, createComp, compProvided])

theorem compOk_setAgreed (c : Collab) (p : Party) (now : Nat) :
    compOk (setAgreed c p now) = compOk c := by
  cases p <;> rfl

theorem compOk_setAgreed_status (c : Collab) (p : Party) (now : Nat)
    (s : CStatus) : compOk { setAgreed c p now with status := s } = compOk c := by
  cases p <;> rfl

theorem compOk_respond (c c2 : Collab) (a : Nat) (d : Decision) (now : Nat)
    (h : compOk c = true) (hr : respond c a d now = .ok c2) :
    compOk c2 = true := by
  unfold respond at hr
  repeat' split at hr
  all_goals first
    | exact Except.noConfusion hr
    | (injection hr with hr; subst hr;
       first
         | exact h
         | (rw [compOk_setAgreed]; exact h))

theorem compOk_approve (c c2 : Collab) (a now : Nat)
    (h : compOk c = true) (hr : approve c a now = .ok c2) :
    compOk c2 = true := by
  unfold approve at hr
  repeat' split at hr
  all_goals first
    | exact Except.noConfusion hr
    | (injection hr with hr; subst hr;
       rw [compOk_setAgreed_status]; exact h)

theorem compOk_cancel (c c2 : Collab) (a : Nat) (r : Option String) (now : Nat)
    (h : compOk c = true) (hr : cancel c a r now = .ok c2) :
    compOk c2 = true := by
  unfold cancel at hr
  repeat' split at hr
  all_goals first
    | exact Except.noConfusion hr
    | (injection hr with hr; subst hr; exact h)

theorem compOk_toggle (c c2 : Collab) (did a : Nat)
    (h : compOk c = true) (hr : toggle c did a = .ok c2) :
    compOk c2 = true := by
  unfold toggle at hr
  repeat' split at hr
  all_goals first
    | exact Except.noConfusion hr
    | (injection hr with hr; subst hr; exact h)

theorem compOk_applyUpdate (c : Collab) (req : UpdateRequest)
    (comp : Option Nat × Option Nat × Option Nat × Option Nat)
    (ds : List Deliverable) (p : Party) (now : Nat)
    (h : updateComp (effType req c) req c = some comp) :
    compOk (applyUpdate c req comp ds p now) = true := by
  unfold updateComp at h
  cases het : effType req c <;> simp only [het] at h <;> split at h <;>
    first
      | exact Option.noConfusion h
      | (injection h with h; subst h;
         cases p <;> simp_all [applyUpdate, stampAgreement, compOk, het])

theorem compOk_update (c c2 : Collab) (req : UpdateRequest) (a now base : Nat)
    (hr : update c req a now base = .ok c2) : compOk c2 = true := by
  unfold update at hr
  split at hr
  case isFalse => exact Except.noConfusion hr
  case isTrue hp =>
    split at hr
    · exact Except.noConfusion hr
    · rename_i p heqp
      cases hcomp : updateComp (effType req c) req c with
      | none =>
        simp only [hcomp] at hr
        exact Except.noConfusion hr
      | some comp =>
        simp only [hcomp] at hr
        repeat' split at hr
        all_goals first
          | exact Except.noConfusion hr
          | (injection hr with hr; subst hr;
             exact compOk_applyUpdate _ _ _ _ _ _ hcomp)

/-- Every reachable collaboration satisfies the compensation invariant. -/
theorem compOk_reachable (c : Collab) (h : Reachable c) : compOk c = true := by
  induction h with
  | created req role callerId lh nid base c hc => exact compOk_create _ _ _ _ _ _ _ hc
  | responded c a d now c2 _ hstep ih => exact compOk_respond _ _ _ _ _ ih hstep
  | updatedTerms c req a now base c2 _ hstep _ => exact compOk_update _ _ _ _ _ _ hstep
  | approved c a now c2 _ hstep ih => exact compOk_approve _ _ _ _ ih hstep
  | cancelledStep c a r now c2 _ hstep ih => exact compOk_cancel _ _ _ _ _ ih hstep
  | toggled c did a c2 _ hstep ih => exact compOk_toggle _ _ _ _ ih hstep

/-- Every reachable collaboration satisfies the agreement-flag invariant. -/
theorem agreeOk_reachable (c : Collab) (h : Reachable c) : agreeOk c = true := by
  induction h with
  | created req role callerId lh nid base c hc => exact agreeOk_create _ _ _ _ _ _ _ hc
  | responded c a d now c2 _ hstep ih => exact agreeOk_respond _ _ _ _ _ ih hstep
  | updatedTerms c req a now base c2 _ hstep _ => exact agreeOk_update _ _ _ _ _ _ hstep
  | approved c a now c2 _ hstep ih => exact agreeOk_approve _ _ _ _ ih hstep
  | cancelledStep c a r now c2 _ hstep ih => exact agreeOk_cancel _ _ _ _ _ ih hstep
  | toggled c did a c2 _ hstep ih => exact agreeOk_toggle _ _ _ _ ih hstep

/-! ### Characterisation of the successful transitions -/

theorem respond_pending_accept (c : Collab) (a t : Nat) (p : Party)
    (hs : c.status = .pending) (hp : partyOf c a = some p)
    (hne : p ≠ c.initiator_type) :
    respond c a .daccepted t = .ok (setAgreed { c with status := .negotiating } p t) := by
  unfold respond
  rw [if_pos hs]
  simp only [hp]
  rw [if_neg hne]

theorem respond_pending_decline (c : Collab) (a t : Nat) (p : Party)
    (hs : c.status = .pending) (hp : partyOf c a = some p)
    (hne : p ≠ c.initiator_type) :
    respond c a .ddeclined t = .ok { c with status := .declined } := by
  unfold respond
  rw [if_pos hs]
  simp only [hp]
  rw [if_neg hne]

theorem approve_negotiating (c : Collab) (a now : Nat) (p : Party)
    (hs : c.status = .negotiating) (hp : partyOf c a = some p) :
    approve c a now =
      if bothAgreed (setAgreed c p now) then
        .ok { setAgreed c p now with status := .accepted }
      else .ok (setAgreed c p now) := by
  unfold approve
  rw [if_pos hs]
  simp only [hp]

theorem toggle_of_mem (c : Collab) (did a : Nat) (p : Party)
    (hp : partyOf c a = some p)
    (hmem : (c.deliverables.any fun d => d.id = did) = true) :
    toggle c did a =
      .ok { c with deliverables := c.deliverables.map (toggleIfId did) } := by
  unfold toggle
  simp only [hp]
  rw [if_pos hmem]

/-! ### The claims -/

/-- C1: in every reachable collaboration state, `status = accepted` holds if
and only if both `creator_agreed_at` and `hotel_agreed_at` are non-null; the
reachable states are exactly the closure of create under respond, update
terms, approve, cancel and toggle, so every operation preserves the
biconditional. -/
theorem accepted_iff_both_agreed (c : Collab) (h : Reachable c) :
    c.status = .accepted ↔
      (c.creator_agreed_at.isSome = true ∧ c.hotel_agreed_at.isSome = true) := by
  have ha := agreeOk_reachable c h
  unfold agreeOk at ha
  cases hs : c.status <;> simp only [hs] at ha
  case pending =>
    simp only [Bool.and_eq_true, Option.isNone_iff_eq_none] at ha
    simp [ha.1, ha.2]
  case negotiating =>
    simp only [Bool.or_eq_true, Option.isNone_iff_eq_none] at ha
    rcases ha with ha | ha <;> simp [ha]
  case accepted =>
    simp only [Bool.and_eq_true] at ha
    simp [ha.1, ha.2]
  case declined =>
    simp only [Bool.or_eq_true, Option.isNone_iff_eq_none] at ha
    rcases ha with ha | ha <;> simp [ha]
  case cancelled =>
    simp only [Bool.or_eq_true, Option.isNone_iff_eq_none] at ha
    rcases ha with ha | ha <;> simp [ha]

/-- C2: once a collaboration is in a terminal status (accepted, declined or
cancelled), every respond, approve or cancel call fails with Conflict (and so
returns no changed collaboration), a terms update also fails with Conflict,
and a deliverable toggle never changes the status: no operation leaves a
terminal state. -/
theorem terminal_frozen (c : Collab) (h : isTerminal c.status = true) :
    (∀ a d now, respond c a d now = .error .conflict)
  ∧ (∀ a now, approve c a now = .error .conflict)
  ∧ (∀ a r now, cancel c a r now = .error .conflict)
  ∧ (∀ req a now base, update c req a now base = .error .conflict)
  ∧ (∀ did a c2, toggle c did a = .ok c2 → c2.status = c.status) := by
  have h1 : ¬c.status = .pending := by
    cases hs : c.status <;> simp_all [isTerminal]
  have h2 : ¬c.status = .negotiating := by
    cases hs : c.status <;> simp_all [isTerminal]
  refine ⟨?_, ?_, ?_, ?_, ?_⟩
  · intro a d now; unfold respond; rw [if_neg h1]
  · intro a now; unfold approve; rw [if_neg h2]
  · intro a r now; unfold cancel; rw [if_pos h]
  · intro req a now base; unfold update; rw [if_neg h2]
  · intro did a c2 ht
    unfold toggle at ht
    repeat' split at ht
    all_goals first
      | exact Except.noConfusion ht
      | (injection ht with ht; subst ht; rfl)

/-- C6: in every reachable collaboration state, at most one of the
compensation groups {stay nights, paid amount, discount percentage} is
non-null, namely exactly the group matching `collaboration_type`; in
particular after a terms update that changes the type, the old type's
compensation fields are null. -/
theorem compensation_matches_type (c : Collab) (h : Reachable c) :
    (c.ctype = .freeStay →
      c.paid_amount = none ∧ c.discount_percentage = none)
  ∧ (c.ctype = .paid →
      c.free_stay_min_nights = none ∧ c.free_stay_max_nights = none ∧
      c.discount_percentage = none)
  ∧ (c.ctype = .discount →
      c.free_stay_min_nights = none ∧ c.free_stay_max_nights = none ∧
      c.paid_amount = none) := by
  have hc := compOk_reachable c h
  unfold compOk at hc
  cases hct : c.ctype <;> simp only [hct] at hc <;>
    simp_all [Bool.and_eq_true, beq_iff_eq]

/-- The id of the party that created the proposal. -/
def initiatorId (c : Collab) : Nat :=
  match c.initiator_type with
  | .creator => c.creator_id
  | .hotel => c.hotel_id

/-- The id of the non-initiating party, the required responder. -/
def responderId (c : Collab) : Nat :=
  match c.initiator_type with
  | .creator => c.hotel_id
  | .hotel => c.creator_id

/-- C3: while negotiating, an approve call by a participant sets that
caller's own agreement timestamp and yields `accepted` exactly when both
agreement flags are non-null afterwards; and because respond-accept already
stamped the responder's flag, a single subsequent approve by the initiator
reaches `accepted`. -/
theorem approve_sets_own_flag (c : Collab) :
    (∀ a now p, c.status = .negotiating → partyOf c a = some p →
      ∃ c2, approve c a now = .ok c2 ∧ agreedAt c2 p = some now ∧
        (c2.status = .accepted ↔ bothAgreed c2 = true))
  ∧ (∀ t1 t2 c1, c.status = .pending → c.creator_id ≠ c.hotel_id →
      respond c (responderId c) .daccepted t1 = .ok c1 →
      ∃ c2, approve c1 (initiatorId c) t2 = .ok c2 ∧ c2.status = .accepted) := by
  constructor
  · intro a now p hs hp
    rw [approve_negotiating c a now p hs hp]
    by_cases hb : bothAgreed (setAgreed c p now) = true
    · rw [if_pos hb]
      refine ⟨_, rfl, ?_, ?_⟩
      · cases p <;> rfl
      · exact iff_of_true rfl hb
    · rw [if_neg hb]
      refine ⟨_, rfl, ?_, ?_⟩
      · cases p <;> rfl
      · refine iff_of_false ?_ hb
        intro hacc
        have : c.status = .accepted := by
          cases p <;> simpa [setAgreed] using hacc
        rw [hs] at this
        exact CStatus.noConfusion this
  · intro t1 t2 c1 hs hne hr
    cases hit : c.initiator_type
    case creator =>
      have hrid : responderId c = c.hotel_id := by
        simp only [responderId, hit]
      have hpr : partyOf c c.hotel_id = some .hotel := by
        simp [partyOf, Ne.symm hne]
      rw [hrid, respond_pending_accept c c.hotel_id t1 .hotel hs hpr
        (by rw [hit]; exact fun h => Party.noConfusion h)] at hr
      injection hr with hr
      subst hr
      have hiid : initiatorId c = c.creator_id := by
        simp only [initiatorId, hit]
      have hpa : partyOf
          (setAgreed { c with status := .negotiating } .hotel t1) c.creator_id =
          some .creator := by
        simp [partyOf, setAgreed]
      rw [hiid, approve_negotiating _ c.creator_id t2 .creator rfl hpa]
      exact ⟨_, rfl, rfl⟩
    case hotel =>
      have hrid : responderId c = c.creator_id := by
        simp only [responderId, hit]
      have hpr : partyOf c c.creator_id = some .creator := by
        simp [partyOf]
      rw [hrid, respond_pending_accept c c.creator_id t1 .creator hs hpr
        (by rw [hit]; exact fun h => Party.noConfusion h)] at hr
      injection hr with hr
      subst hr
      have hiid : initiatorId c = c.hotel_id := by
        simp only [initiatorId, hit]
      have hpa : partyOf
          (setAgreed { c with status := .negotiating } .creator t1) c.hotel_id =
          some .hotel := by
        simp [partyOf, setAgreed, Ne.symm hne]
      rw [hiid, approve_negotiating _ c.hotel_id t2 .hotel rfl hpa]
      exact ⟨_, rfl, rfl⟩

/-- C4: a pending collaboration answered by the non-initiating party moves to
`negotiating` with that party's agreement stamped on accept, and to `declined`
on decline; the initiator answering their own proposal gets Forbidden, and a
respond call outside `pending` gets Conflict. -/
theorem respond_rules (c : Collab) (a now : Nat) :
    (∀ p, c.status = .pending → partyOf c a = some p → p ≠ c.initiator_type →
      (∃ c2, respond c a .daccepted now = .ok c2 ∧ c2.status = .negotiating ∧
        agreedAt c2 p = some now)
      ∧ (∃ c2, respond c a .ddeclined now = .ok c2 ∧ c2.status = .declined))
  ∧ (∀ d, c.status = .pending → partyOf c a = some c.initiator_type →
      respond c a d now = .error .forbidden)
  ∧ (∀ d, ¬c.status = .pending → respond c a d now = .error .conflict) := by
  refine ⟨?_, ?_, ?_⟩
  · intro p hs hp hne
    constructor
    · rw [respond_pending_accept c a now p hs hp hne]
      refine ⟨_, rfl, ?_, ?_⟩ <;> cases p <;> rfl
    · rw [respond_pending_decline c a now p hs hp hne]
      exact ⟨_, rfl, rfl⟩
  · intro d hs hp
    unfold respond
    rw [if_pos hs]
    simp only [hp]
    simp
  · intro d hs
    unfold respond
    rw [if_neg hs]

/-- C5: a successful terms update while negotiating stamps the acting party's
agreement with the current time, clears the counterpart's agreement to null,
and when deliverables are supplied the collaboration's deliverable set is the
freshly materialised one — a full replacement, not a merge. -/
theorem update_resets_agreement (c c2 : Collab) (req : UpdateRequest)
    (a now base : Nat) (p : Party) (hp : partyOf c a = some p)
    (hr : update c req a now base = .ok c2) :
    agreedAt c2 p = some now ∧ agreedAt c2 (otherParty p) = none ∧
    (∀ specs, req.deliverables = some specs →
      c2.deliverables = mkDeliverables base specs) := by
  unfold update at hr
  split at hr
  case isFalse => exact Except.noConfusion hr
  case isTrue hs =>
    simp only [hp] at hr
    cases hcomp : updateComp (effType req c) req c
    case none =>
      simp only [hcomp] at hr
      exact Except.noConfusion hr
    case some comp =>
      simp only [hcomp] at hr
      split at hr
      case isFalse => exact Except.noConfusion hr
      case isTrue hd =>
        cases hds : req.deliverables
        case none =>
          simp only [hds] at hr
          injection hr with hr
          subst hr
          refine ⟨?_, ?_, ?_⟩
          · cases p <;> rfl
          · cases p <;> rfl
          · intro specs hsp
            exact Option.noConfusion hsp
        case some specs =>
          simp only [hds] at hr
          split at hr
          case isFalse => exact Except.noConfusion hr
          case isTrue hq =>
            injection hr with hr
            subst hr
            refine ⟨?_, ?_, ?_⟩
            · cases p <;> rfl
            · cases p <;> rfl
            · intro specs2 hsp
              injection hsp with hsp
              subst hsp
              cases p <;> rfl

/-- C7: a create request whose initiator type does not match the caller's
role, or whose compensation fields required by the chosen type are absent
(Free Stay without min or max nights, Paid without an amount, Discount
without a percentage), fails with ValidationError; the operation returns an
error and no collaboration, so nothing is created. -/
theorem create_validation (req : CreateRequest) (role : Party)
    (callerId listingHotelId newId base : Nat) :
    (req.initiator_type ≠ role →
      create req role callerId listingHotelId newId base = .error .validation)
  ∧ (req.ctype = .freeStay →
      (req.free_stay_min_nights = none ∨ req.free_stay_max_nights = none) →
      create req role callerId listingHotelId newId base = .error .validation)
  ∧ (req.ctype = .paid → req.paid_amount = none →
      create req role callerId listingHotelId newId base = .error .validation)
  ∧ (req.ctype = .discount → req.discount_percentage = none →
      create req role callerId listingHotelId newId base = .error .validation) := by
  have key : compProvided req = false →
      create req role callerId listingHotelId newId base = .error .validation := by
    intro hcp
    unfold create
    split
    · rw [if_neg (fun hx => Bool.noConfusion (hcp.symm.trans hx))]
    · rfl
  refine ⟨?_, fun h1 h2 => key ?_, fun h1 h2 => key ?_, fun h1 h2 => key ?_⟩
  · intro hne
    unfold create
    rw [if_neg hne]
  · unfold compProvided
    rw [h1]
    rcases h2 with h2 | h2 <;> simp [h2]
  · unfold compProvided
    rw [h1, h2]
    rfl
  · unfold compProvided
    rw [h1, h2]
    rfl

theorem toggleIfId_invol (did : Nat) (d : Deliverable) :
    toggleIfId did (toggleIfId did d) = d := by
  rcases d with ⟨i, pl, dt, q, st⟩
  by_cases h : i = did
  · cases st <;> simp [toggleIfId, flipStatus, h]
  · simp [toggleIfId, h]

theorem map_toggle_invol (did : Nat) (ds : List Deliverable) :
    (ds.map (toggleIfId did)).map (toggleIfId did) = ds := by
  induction ds with
  | nil => rfl
  | cons d ds ih => simp [ih, toggleIfId_invol]

theorem toggleIfId_id (did : Nat) (d : Deliverable) :
    (toggleIfId did d).id = d.id := by
  unfold toggleIfId
  split <;> rfl

theorem any_map_toggle (did : Nat) (ds : List Deliverable) :
    ((ds.map (toggleIfId did)).any fun d => d.id = did) =
      (ds.any fun d => d.id = did) := by
  induction ds with
  | nil => rfl
  | cons d ds ih => simp [List.any_cons, ih, toggleIfId_id]

/-- C8: toggling a deliverable that belongs to the collaboration twice by a
participant returns the collaboration to its original state (toggle is an
involution and changes nothing but the deliverable list), and toggling an
id that does not belong to the collaboration fails with NotFound. -/
theorem toggle_involutive (c : Collab) (did a : Nat) (p : Party)
    (hp : partyOf c a = some p) :
    ((c.deliverables.any fun d => d.id = did) = true →
      ∃ c1, toggle c did a = .ok c1 ∧ toggle c1 did a = .ok c ∧
        { c1 with deliverables := c.deliverables } = c)
  ∧ ((c.deliverables.any fun d => d.id = did) = false →
      toggle c did a = .error .notFound) := by
  constructor
  · intro hmem
    refine ⟨{ c with deliverables := c.deliverables.map (toggleIfId did) },
      toggle_of_mem c did a p hp hmem, ?_, rfl⟩
    have h2 := toggle_of_mem
      { c with deliverables := c.deliverables.map (toggleIfId did) } did a p hp
      (by
        show ((c.deliverables.map (toggleIfId did)).any fun d => d.id = did) = true
        rw [any_map_toggle]
        exact hmem)
    rw [h2]
    show Except.ok { c with
        deliverables := (c.deliverables.map (toggleIfId did)).map (toggleIfId did) } =
      Except.ok c
    rw [map_toggle_invol]
  · intro hnone
    unfold toggle
    simp only [hp]
    rw [if_neg (fun hx => Bool.noConfusion (hnone.symm.trans hx))]

/-- C9: the list-conversations projection for a user is sorted by last
message timestamp descending, contains no pending collaboration, and each
row's unread count is the number of messages of that collaboration sent by
the counterpart after the viewer's last read marker. -/
theorem conversations_view (viewer : Nat) (cs : List Collab)
    (ms : List Message) (reads : Nat → Option Nat) :
    (conversationsFor viewer cs ms reads).Sorted convGE
  ∧ ∀ s ∈ conversationsFor viewer cs ms reads,
      s.collaboration_status ≠ .pending ∧
      ∃ c, c ∈ cs ∧ c.id = s.collaboration_id ∧ c.status = s.collaboration_status ∧
        s.unread_count = unreadCount viewer ms (reads c.id) c.id := by
  constructor
  · exact List.sorted_insertionSort convGE _
  · intro s hs
    unfold conversationsFor at hs
    have hmem := (List.perm_insertionSort convGE _).mem_iff.mp hs
    rcases List.mem_map.mp hmem with ⟨c, hcf, hmk⟩
    obtain ⟨hcin, hpred⟩ := List.mem_filter.mp hcf
    simp only [Bool.and_eq_true, Bool.not_eq_true', beq_eq_false_iff_ne] at hpred
    subst hmk
    exact ⟨hpred.2, c, hcin, rfl, rfl, rfl⟩

/-- C10: a terms update while negotiating that supplies only the single field
stay_nights = n (type unchanged, Free Stay) collapses the night range:
both free_stay_min_nights and free_stay_max_nights become n. -/
theorem stay_nights_collapse (c c2 : Collab) (req : UpdateRequest)
    (a now base n : Nat) (hty : req.ctype = none) (hn : req.stay_nights = some n)
    (hft : c.ctype = .freeStay) (hr : update c req a now base = .ok c2) :
    c2.free_stay_min_nights = some n ∧ c2.free_stay_max_nights = some n := by
  unfold update at hr
  split at hr
  case isFalse => exact Except.noConfusion hr
  case isTrue hs =>
    split at hr
    · exact Except.noConfusion hr
    · rename_i p heqp
      have het : effType req c = .freeStay := by
        simp only [effType, hty]
        exact hft
      have hcomp : updateComp (effType req c) req c =
          some (some n, some n, none, none) := by
        rw [het]
        simp [updateComp, orElse2, hn]
      simp only [hcomp] at hr
      split at hr
      case isFalse => exact Except.noConfusion hr
      case isTrue hd =>
        cases hds : req.deliverables
        case none =>
          simp only [hds] at hr
          injection hr with hr
          subst hr
          exact ⟨by cases p <;> rfl, by cases p <;> rfl⟩
        case some specs =>
          simp only [hds] at hr
          split at hr
          case isFalse => exact Except.noConfusion hr
          case isTrue hq =>
            injection hr with hr
            subst hr
            exact ⟨by cases p <;> rfl, by cases p <;> rfl⟩

/-! ### Concrete witness data

A creator (id 1) proposes a Free Stay collaboration on the listing of a hotel
(id 2); the hotel accepts, the creator approves.  The fixture mirrors the
flow of tests/test_collaborations.py. -/

def specW : DeliverableSpec :=
  { platform := "Instagram", dtype := "Reel", quantity := 2, status := .dpending }

def reqW : CreateRequest :=
  { initiator_type := .creator, listing_id := 7, creator_id := none,
    ctype := .freeStay, free_stay_min_nights := some 3,
    free_stay_max_nights := some 5, paid_amount := none,
    discount_percentage := none, travel_date_from := some 30,
    travel_date_to := some 35, deliverables := [specW], consent := true }

/-- The pending collaboration created from `reqW`. -/
def cW0 : Collab := newCollab reqW 1 2 10 100

/-- After the hotel accepts at time 40. -/
def cW1 : Collab := { cW0 with status := .negotiating, hotel_agreed_at := some 40 }

/-- After the creator approves at time 50. -/
def cW2 : Collab :=
  { cW0 with status := .accepted, creator_agreed_at := some 50,
             hotel_agreed_at := some 40 }

/-- A sparse terms update: only stay_nights = 9. -/
def requW : UpdateRequest :=
  { ctype := none, stay_nights := some 9, paid_amount := none,
    discount_percentage := none, travel_date_from := none,
    travel_date_to := none, deliverables := none }

/-- The result of the creator applying `requW` to `cW1` at time 55. -/
def cU : Collab :=
  { cW1 with free_stay_min_nights := some 9, free_stay_max_nights := some 9,
             creator_agreed_at := some 55, hotel_agreed_at := none }

/-- Witness for C1: the biconditional at the concrete accepted state reached
by create, respond-accept and approve. -/
theorem accepted_iff_both_agreed_w :
    cW2.status = .accepted ↔
      (cW2.creator_agreed_at.isSome = true ∧ cW2.hotel_agreed_at.isSome = true) :=
  accepted_iff_both_agreed cW2
    (.approved cW1 1 50 cW2
      (.responded cW0 2 .daccepted 40 cW1
        (.created reqW .creator 1 2 10 100 cW0 rfl) rfl)
      rfl)

/-- Witness for C2 at the concrete accepted (terminal) state. -/
theorem terminal_frozen_w :
    respond cW2 1 .daccepted 60 = .error .conflict ∧
    approve cW2 1 60 = .error .conflict ∧
    cancel cW2 1 none 60 = .error .conflict ∧
    update cW2 requW 1 60 300 = .error .conflict :=
  ⟨(terminal_frozen cW2 rfl).1 1 .daccepted 60,
   (terminal_frozen cW2 rfl).2.1 1 60,
   (terminal_frozen cW2 rfl).2.2.1 1 none 60,
   (terminal_frozen cW2 rfl).2.2.2.1 requW 1 60 300⟩

/-- Witness for C3: after the hotel's accept at time 40, the creator's single
approve at time 50 reaches `accepted`. -/
theorem approve_sets_own_flag_w :
    ∃ c2, approve cW1 (initiatorId cW0) 50 = .ok c2 ∧ c2.status = .accepted :=
  (approve_sets_own_flag cW0).2 40 50 cW1 rfl (by decide) rfl

/-- Witness for C4: the hotel accepting the pending proposal moves it to
`negotiating` and stamps the hotel's agreement. -/
theorem respond_rules_w :
    ∃ c2, respond cW0 2 .daccepted 40 = .ok c2 ∧ c2.status = .negotiating ∧
      agreedAt c2 .hotel = some 40 :=
  ((respond_rules cW0 2 40).1 .hotel rfl rfl (by decide)).1

/-- Witness for C5: the concrete update `requW` stamps the creator and clears
the hotel's prior agreement. -/
theorem update_resets_agreement_w :
    agreedAt cU .creator = some 55 ∧ agreedAt cU (otherParty .creator) = none :=
  ⟨(update_resets_agreement cW1 cU requW 1 55 200 .creator rfl rfl).1,
   (update_resets_agreement cW1 cU requW 1 55 200 .creator rfl rfl).2.1⟩

/-- Witness for C6: the compensation invariant at the freshly created state. -/
theorem compensation_matches_type_w :
    (cW0.ctype = .freeStay →
      cW0.paid_amount = none ∧ cW0.discount_percentage = none)
  ∧ (cW0.ctype = .paid →
      cW0.free_stay_min_nights = none ∧ cW0.free_stay_max_nights = none ∧
      cW0.discount_percentage = none)
  ∧ (cW0.ctype = .discount →
      cW0.free_stay_min_nights = none ∧ cW0.free_stay_max_nights = none ∧
      cW0.paid_amount = none) :=
  compensation_matches_type cW0 (.created reqW .creator 1 2 10 100 cW0 rfl)

/-- Witness for C7: a creator submitting `reqW` while authenticated as a hotel
is rejected with ValidationError. -/
theorem create_validation_w :
    create reqW .hotel 1 2 10 100 = .error .validation :=
  (create_validation reqW .hotel 1 2 10 100).1 (by decide)

/-- Witness for C8: double-toggling deliverable 100 of `cW0` restores it. -/
theorem toggle_involutive_w :
    ∃ c1, toggle cW0 100 1 = .ok c1 ∧ toggle c1 100 1 = .ok cW0 ∧
      { c1 with deliverables := cW0.deliverables } = cW0 :=
  (toggle_involutive cW0 100 1 .creator rfl).1 (by decide)

/-- Two negotiating collaborations of the same creator for the conversation
projection witness. -/
def cX1 : Collab := { cW0 with id := 1, status := .negotiating }

def cX2 : Collab := { cW0 with id := 2, status := .negotiating }

def msW : List Message :=
  [{ collab_id := 1, sender_id := 2, created_at := 10 },
   { collab_id := 2, sender_id := 2, created_at := 20 },
   { collab_id := 1, sender_id := 1, created_at := 30 }]

def readsW : Nat → Option Nat := fun n => if n = 1 then some 5 else none

def sX1 : ConvSummary :=
  { collaboration_id := 1, collaboration_status := .negotiating,
    last_message_at := some 30, unread_count := 1 }

/-- Witness for C9: the projection of the concrete data is sorted and its
first row is non-pending. -/
theorem conversations_view_w :
    (conversationsFor 1 [cX1, cX2] msW readsW).Sorted convGE ∧
    sX1.collaboration_status ≠ .pending :=
  ⟨(conversations_view 1 [cX1, cX2] msW readsW).1,
   ((conversations_view 1 [cX1, cX2] msW readsW).2 sX1 (by decide)).1⟩

/-- Witness for C10: the update `requW` (stay_nights = 9) collapses the night
range of `cW1` to 9–9. -/
theorem stay_nights_collapse_w :
    cU.free_stay_min_nights = some 9 ∧ cU.free_stay_max_nights = some 9 :=
  stay_nights_collapse cW1 cU requW 1 55 200 9 rfl rfl rfl rfl

end Vayada
